import Mathlib

/-!
# Verification of the RouteMaster recommendation engine

Shallow embedding of `backend/recommendation_engine.py` (class
`RecommendationEngine`) together with the data model it operates on
(`backend/models.py`, `backend/database/models.py`).

Modelling conventions:
* The SQLAlchemy session is modelled as the list of rows of the table the
  operation queries (`List TravelCombination`, `List Location`): a
  `db.query(T).filter(p).all()` becomes `List.filter` and `.first()` becomes
  `List.find?`.
* Python `int` is `Int`; Python `float` score arithmetic is modelled exactly
  over `ℚ` (the literal `1.2` is the rational `6 / 5`; for the integer
  budgets involved the float comparison `combo.budget <= budget * 1.2`
  agrees with the exact rational comparison).
* Python `set` of style names is `Finset String`.
* `list.sort(key=lambda x: (x[0], x[1]), reverse=True)` is a stable sort
  placing greater keys first; `List.insertionSort` with the reflexive
  "key of `a` is lexicographically ≥ key of `b`" relation is such a stable
  sort, hence computes the same list.
* JSON dictionaries keep Python's insertion order, so they are association
  lists; a possibly-missing JSON field is an `Option` read with the same
  default that `dict.get(key, default)` supplies.
-/

namespace RouteMaster

/-- `models.DayItinerary`: one day of a materialized itinerary. -/
structure DayItinerary where
  locations : List String
  description : String
  meals : String
  accommodation : Option String
  transport : String
deriving DecidableEq

/-- A raw JSON day entry as stored on `TravelCombination.itinerary`
(each field may be missing; `dict.get` defaults are applied on conversion). -/
structure RawDay where
  locations : Option (List String)
  description : Option String
  meals : Option String
  accommodation : Option String
  transport : Option String
deriving DecidableEq

/-- `models.EstimatedCost`: the materialized cost breakdown. -/
structure EstimatedCost where
  entrance_fees : Int
  meals : Int
  transport : Int
  accommodation : Option Int
  guide : Option Int
  total : Int
deriving DecidableEq

/-- The raw JSON cost dictionary stored on `TravelCombination.estimated_cost`. -/
structure RawCost where
  entranceFees : Option Int
  meals : Option Int
  transport : Option Int
  accommodation : Option Int
  guide : Option Int
  total : Option Int
deriving DecidableEq

/-- `database.models.TravelCombination`, with the many-to-many
`travel_styles` relationship already resolved to the list of style names
(in database order). -/
structure TravelCombination where
  id : Int
  days : Int
  start_location : String
  budget : Int
  budget_category : String
  itinerary : List (String × RawDay)
  estimated_cost : RawCost
  highlights : List String
  travel_styles : List String
deriving DecidableEq

/-- `models.TravelRecommendation`: the recommendation payload returned to the
caller; `score` is exact rational in place of the Python float. -/
structure TravelRecommendation where
  id : Int
  travel_styles : List String
  days : Int
  start_location : String
  budget : Int
  budget_category : String
  itinerary : List (String × DayItinerary)
  estimated_cost : EstimatedCost
  highlights : List String
  score : ℚ
deriving DecidableEq

/-- `database.models.Location`. Coordinates are an optional latitude/longitude
pair (exact rationals standing for the JSON numbers). -/
structure Location where
  id : Int
  string_id : String
  name : String
  category : String
  district : String
  time_required : Int
  entrance_fee : Int
  description : String
  coordinates : Option (ℚ × ℚ)
deriving DecidableEq

/-- `models.LocationInfo`. -/
structure LocationInfo where
  id : String
  name : String
  district : String
  time_required : Int
  entrance_fee : Int
  description : String
  coordinates : Option (ℚ × ℚ)
deriving DecidableEq

/-- Python `round` to the nearest integer, ties to even (banker's rounding),
on an exact rational. -/
def roundHalfEven (q : ℚ) : ℤ :=
  if q - ⌊q⌋ = 1 / 2 then (if ⌊q⌋ % 2 = 0 then ⌊q⌋ else ⌊q⌋ + 1) else round q

/-- Python `round(x, 2)`: round to 2 decimal places. -/
def pyRound2 (q : ℚ) : ℚ :=
  (roundHalfEven (q * 100) : ℚ) / 100

/-- Python list slicing `l[:limit]` for an `int` limit (a negative limit
counts from the end of the list). -/
def pyTake {α : Type} (limit : Int) (l : List α) : List α :=
  if 0 ≤ limit then l.take limit.toNat else l.take ((l.length : Int) + limit).toNat

/-- The JSON-to-model conversion of one itinerary day performed inside
`RecommendationEngine._convert_to_recommendation`: each `day_data.get(...)`
with its default. -/
def convertDay (d : RawDay) : DayItinerary :=
  { locations := d.locations.getD []
    description := d.description.getD ""
    meals := d.meals.getD ""
    accommodation := d.accommodation
    transport := d.transport.getD "" }

/-- The JSON-to-model conversion of the estimated cost performed inside
`RecommendationEngine._convert_to_recommendation`. -/
def convertCost (c : RawCost) : EstimatedCost :=
  { entrance_fees := c.entranceFees.getD 0
    meals := c.meals.getD 0
    transport := c.transport.getD 0
    accommodation := c.accommodation
    guide := c.guide
    total := c.total.getD 0 }

/-- `RecommendationEngine._convert_to_recommendation(combo, score)`. -/
def convert_to_recommendation (combo : TravelCombination) (score : ℚ) :
    TravelRecommendation :=
  { id := combo.id
    travel_styles := combo.travel_styles
    days := combo.days
    start_location := combo.start_location
    budget := combo.budget
    budget_category := combo.budget_category
    itinerary := combo.itinerary.map fun p => (p.1, convertDay p.2)
    estimated_cost := convertCost combo.estimated_cost
    highlights := combo.highlights
    score := pyRound2 score }

/-- `set(s.name for s in combo.travel_styles)`. -/
def comboStyles (c : TravelCombination) : Finset String :=
  c.travel_styles.toFinset

/-- The style-coverage term of the score (`get_recommendations` lines 71–77):
`coverage * 70` when the user's style set is non-empty, `0.0` otherwise. -/
def styleScore (userStyles : Finset String) (c : TravelCombination) : ℚ :=
  if userStyles = ∅ then 0
  else ((comboStyles c ∩ userStyles).card : ℚ) / (userStyles.card : ℚ) * 70

/-- The budget term of the score (`get_recommendations` lines 79–84).
The Python float literal `1.2` is the exact rational `6 / 5`. -/
def budgetScore (budget : Int) (c : TravelCombination) : ℚ :=
  if c.budget ≤ budget then 30
  else if (c.budget : ℚ) ≤ (budget : ℚ) * (6 / 5) then 15
  else 0

/-- The two hard filters of `get_recommendations`: the database query on
`start_location` and `days` (lines 52–59), then the style-subset check
(lines 64–69). -/
def hardFiltered (dbCombos : List TravelCombination) (travel_styles : List String)
    (days : Int) (start_location : String) : List TravelCombination :=
  (dbCombos.filter fun c => c.start_location == start_location && c.days == days).filter
    fun c => decide (comboStyles c ⊆ travel_styles.toFinset)

/-- The `scored_recommendations` list built by the loop of
`get_recommendations`: `(style_score, total_score, combo)` triples for the
candidates surviving both hard filters. -/
def scoredList (dbCombos : List TravelCombination) (travel_styles : List String)
    (days : Int) (start_location : String) (budget : Int) :
    List (ℚ × ℚ × TravelCombination) :=
  (hardFiltered dbCombos travel_styles days start_location).map fun c =>
    (styleScore travel_styles.toFinset c,
     styleScore travel_styles.toFinset c + budgetScore budget c, c)

/-- The order used by `scored_recommendations.sort(key=lambda x: (x[0], x[1]),
reverse=True)`: `x` may stay before `y` iff the key pair of `x` is
lexicographically ≥ the key pair of `y`. -/
def rankRel (x y : ℚ × ℚ × TravelCombination) : Prop :=
  y.1 < x.1 ∨ (x.1 = y.1 ∧ y.2.1 ≤ x.2.1)

instance : DecidableRel rankRel := fun x y =>
  inferInstanceAs (Decidable (y.1 < x.1 ∨ (x.1 = y.1 ∧ y.2.1 ≤ x.2.1)))

instance : IsTotal (ℚ × ℚ × TravelCombination) rankRel where
  total x y := by
    rcases lt_trichotomy x.1 y.1 with h | h | h
    · exact Or.inr (Or.inl h)
    · rcases le_total y.2.1 x.2.1 with h2 | h2
      · exact Or.inl (Or.inr ⟨h, h2⟩)
      · exact Or.inr (Or.inr ⟨h.symm, h2⟩)
    · exact Or.inl (Or.inl h)

instance : IsTrans (ℚ × ℚ × TravelCombination) rankRel where
  trans x y z hxy hyz := by
    rcases hxy with h1 | ⟨e1, l1⟩
    · rcases hyz with h2 | ⟨e2, l2⟩
      · exact Or.inl (h2.trans h1)
      · exact Or.inl (e2 ▸ h1)
    · rcases hyz with h2 | ⟨e2, l2⟩
      · exact Or.inl (e1 ▸ h2)
      · exact Or.inr ⟨e1.trans e2, l2.trans l1⟩

/-- The sorted `scored_recommendations` list (line 90 of the source);
Python's stable descending sort is `insertionSort` with `rankRel`. -/
def sortedScored (dbCombos : List TravelCombination) (travel_styles : List String)
    (days : Int) (start_location : String) (budget : Int) :
    List (ℚ × ℚ × TravelCombination) :=
  List.insertionSort rankRel (scoredList dbCombos travel_styles days start_location budget)

/-- `RecommendationEngine.get_recommendations`. -/
def get_recommendations (dbCombos : List TravelCombination)
    (travel_styles : List String) (days : Int) (start_location : String)
    (budget : Int) (limit : Int := 10) : List TravelRecommendation :=
  (pyTake limit (sortedScored dbCombos travel_styles days start_location budget)).map
    fun x => convert_to_recommendation x.2.2 x.2.1

/-- `RecommendationEngine.get_combination_by_id`; `none` models the Python
`None` that the route layer maps to a 404. -/
def get_combination_by_id (dbCombos : List TravelCombination)
    (combination_id : Int) : Option TravelRecommendation :=
  (dbCombos.find? fun c => c.id == combination_id).map fun combo =>
    convert_to_recommendation combo 0

/-- `RecommendationEngine._convert_to_location_info`. -/
def convert_to_location_info (loc : Location) : LocationInfo :=
  { id := loc.string_id
    name := loc.name
    district := loc.district
    time_required := loc.time_required
    entrance_fee := loc.entrance_fee
    description := loc.description
    coordinates := loc.coordinates }

/-- `s` consists of ASCII characters only. On such strings Python's
`str.lower()` is exactly the character-wise `Char.toLower`; on non-ASCII
characters the two differ (Python lowercases all of Unicode, `Char.toLower`
only `A`–`Z`), so statements about the category filter are made under this
guard. -/
def asciiOnly (s : String) : Bool :=
  s.data.all fun ch => ch.toNat < 128

/-- `category.lower().replace("/", "_").replace("-", "_")`. Both patterns are
single characters, so each Python `str.replace` is a character-wise
substitution, and for ASCII arguments (`asciiOnly`) `str.lower()` is the
character-wise `Char.toLower`; the model is faithful exactly on ASCII
arguments, which cover the catalog's category keys (`cultural`, `spiritual`,
`adventure`, `nature_wildlife`) and the spec's sample inputs. -/
def normalizeCategory (category : String) : String :=
  ⟨category.data.map fun ch =>
    let lower := ch.toLower
    if lower = '/' then '_' else if lower = '-' then '_' else lower⟩

/-- `RecommendationEngine.get_all_locations`. Note the Python truthiness test
`if category:`: the filter is applied only when `category` is neither `None`
nor the empty string. -/
def get_all_locations (dbLocations : List Location)
    (category : Option String := none) : List LocationInfo :=
  let locations :=
    match category with
    | none => dbLocations
    | some cat =>
      if cat = "" then dbLocations
      else dbLocations.filter fun l => l.category == normalizeCategory cat
  locations.map convert_to_location_info

end RouteMaster

namespace RouteMaster

/-! ## Membership lemmas for the recommendation pipeline -/

theorem mem_hardFiltered {db : List TravelCombination} {styles : List String}
    {days : Int} {sl : String} {c : TravelCombination}
    (hc : c ∈ hardFiltered db styles days sl) :
    c ∈ db ∧ c.start_location = sl ∧ c.days = days ∧
      comboStyles c ⊆ styles.toFinset := by
  unfold hardFiltered at hc
  simp only [List.mem_filter, Bool.and_eq_true, beq_iff_eq, decide_eq_true_eq] at hc
  tauto

theorem mem_scoredList {db : List TravelCombination} {styles : List String}
    {days : Int} {sl : String} {b : Int} {x : ℚ × ℚ × TravelCombination}
    (hx : x ∈ scoredList db styles days sl b) :
    x.2.2 ∈ hardFiltered db styles days sl ∧
    x = (styleScore styles.toFinset x.2.2,
         styleScore styles.toFinset x.2.2 + budgetScore b x.2.2, x.2.2) := by
  unfold scoredList at hx
  rcases List.mem_map.mp hx with ⟨c, hcmem, rfl⟩
  exact ⟨hcmem, rfl⟩

theorem mem_of_mem_get_recommendations {db : List TravelCombination}
    {styles : List String} {days : Int} {sl : String} {b lim : Int}
    {rec : TravelRecommendation}
    (h : rec ∈ get_recommendations db styles days sl b lim) :
    ∃ x ∈ scoredList db styles days sl b,
      rec = convert_to_recommendation x.2.2 x.2.1 := by
  unfold get_recommendations at h
  rcases List.mem_map.mp h with ⟨x, hx, rfl⟩
  have hx2 : x ∈ sortedScored db styles days sl b := by
    unfold pyTake at hx
    split at hx <;> exact List.take_subset _ _ hx
  have hx3 : x ∈ scoredList db styles days sl b := by
    unfold sortedScored at hx2
    exact (List.mem_insertionSort rankRel).mp hx2
  exact ⟨x, hx3, rfl⟩

/-! ## A concrete store for witnesses (spec §8, Scenario 1) -/

def exCost : RawCost := ⟨none, none, none, none, none, none⟩

def exCombo1 : TravelCombination :=
  { id := 1, days := 3, start_location := "Kandy", budget := 90000,
    budget_category := "moderate", itinerary := [], estimated_cost := exCost,
    highlights := [], travel_styles := ["Adventure"] }

def exCombo2 : TravelCombination :=
  { id := 2, days := 3, start_location := "Kandy", budget := 120000,
    budget_category := "luxury", itinerary := [], estimated_cost := exCost,
    highlights := [], travel_styles := ["Adventure", "Cultural"] }

def exDb : List TravelCombination := [exCombo1, exCombo2]

theorem exScoredList_eval :
    scoredList exDb ["Adventure", "Cultural"] 3 "Kandy" 100000 =
      [(35, 65, exCombo1), (70, 85, exCombo2)] := by
  simp [scoredList, hardFiltered, exDb, exCombo1, exCombo2, comboStyles,
    styleScore, budgetScore]
  norm_num

theorem exDb_eval :
    get_recommendations exDb ["Adventure", "Cultural"] 3 "Kandy" 100000 10 =
      [convert_to_recommendation exCombo2 85,
       convert_to_recommendation exCombo1 65] := by
  rw [get_recommendations, sortedScored, exScoredList_eval]
  simp [List.insertionSort, List.orderedInsert, rankRel, pyTake]
  norm_num

theorem exDb_mem :
    convert_to_recommendation exCombo2 85 ∈
      get_recommendations exDb ["Adventure", "Cultural"] 3 "Kandy" 100000 10 := by
  rw [exDb_eval]
  exact List.mem_cons_self _ _

/-! ## Claims -/

/-- Claim C1: every combination returned by `get_recommendations` has its
style set a subset of the user's input style set; any combination carrying a
style absent from the input set is excluded from the result. -/
theorem C1_subset_invariant (db : List TravelCombination) (styles : List String)
    (days : Int) (sl : String) (b lim : Int) (rec : TravelRecommendation)
    (hrec : rec ∈ get_recommendations db styles days sl b lim) :
    rec.travel_styles.toFinset ⊆ styles.toFinset := by
  rcases mem_of_mem_get_recommendations hrec with ⟨x, hx, rfl⟩
  have h1 := mem_scoredList hx
  have h2 := mem_hardFiltered h1.1
  simpa [convert_to_recommendation, comboStyles] using h2.2.2.2

theorem C1_witness :
    convert_to_recommendation exCombo2 85 ∈
      get_recommendations exDb ["Adventure", "Cultural"] 3 "Kandy" 100000 10 ∧
    (convert_to_recommendation exCombo2 85).travel_styles.toFinset ⊆
      (["Adventure", "Cultural"] : List String).toFinset :=
  ⟨exDb_mem, C1_subset_invariant exDb ["Adventure", "Cultural"] 3 "Kandy"
    100000 10 (convert_to_recommendation exCombo2 85) exDb_mem⟩

/-- Claim C2: every recommendation returned by `get_recommendations` matches
the requested `days` and `start_location` under exact equality. -/
theorem C2_exact_match (db : List TravelCombination) (styles : List String)
    (days : Int) (sl : String) (b lim : Int) (rec : TravelRecommendation)
    (hrec : rec ∈ get_recommendations db styles days sl b lim) :
    rec.days = days ∧ rec.start_location = sl := by
  rcases mem_of_mem_get_recommendations hrec with ⟨x, hx, rfl⟩
  have h1 := mem_scoredList hx
  have h2 := mem_hardFiltered h1.1
  exact ⟨by simpa [convert_to_recommendation] using h2.2.2.1,
         by simpa [convert_to_recommendation] using h2.2.1⟩

theorem C2_witness :
    (convert_to_recommendation exCombo2 85).days = 3 ∧
    (convert_to_recommendation exCombo2 85).start_location = "Kandy" :=
  C2_exact_match exDb ["Adventure", "Cultural"] 3 "Kandy" 100000 10
    (convert_to_recommendation exCombo2 85) exDb_mem

end RouteMaster

namespace RouteMaster

/-- A combination priced at exactly 120% of a zero budget (that is, at zero). -/
def exComboZero : TravelCombination :=
  { id := 3, days := 2, start_location := "Kandy", budget := 0,
    budget_category := "budget", itinerary := [], estimated_cost := exCost,
    highlights := [], travel_styles := [] }

/-- Claim C3, counterexample: with a user budget of `0`, the combination
`exComboZero` is priced at exactly 120% of the budget (`0 = 0 * 1.2`), yet its
budget score is `30` — the first branch `combo.budget <= budget` fires — and
not `15` as the claim states for every budget value. -/
theorem C3_counterexample :
    (exComboZero.budget : ℚ) = ((0 : Int) : ℚ) * (6 / 5) ∧
    budgetScore 0 exComboZero = 30 ∧ ¬ budgetScore 0 exComboZero = 15 := by
  refine ⟨by norm_num [exComboZero], ?_, ?_⟩ <;>
    simp [budgetScore, exComboZero]

/-- Claim C3 (amended): the budget score is `30` when
`combination.budget <= budget`, else `15` when
`combination.budget <= budget * 1.2`, else `0`; the 1.2x boundary is
inclusive, so whenever the user's budget is positive a combination priced at
exactly 120% of it scores `15`, not `0` (for a zero or negative budget such a
combination already falls under the first branch and scores `30`). -/
theorem C3_budget_score (b : Int) (c : TravelCombination) :
    (c.budget ≤ b → budgetScore b c = 30) ∧
    (¬ c.budget ≤ b → (c.budget : ℚ) ≤ (b : ℚ) * (6 / 5) →
      budgetScore b c = 15) ∧
    (¬ c.budget ≤ b → ¬ (c.budget : ℚ) ≤ (b : ℚ) * (6 / 5) →
      budgetScore b c = 0) ∧
    (0 < b → (c.budget : ℚ) = (b : ℚ) * (6 / 5) → budgetScore b c = 15) := by
  refine ⟨fun h => by simp [budgetScore, h], fun h h2 => ?_, fun h h2 => ?_, fun hb heq => ?_⟩
  · simp [budgetScore, h, h2]
  · simp [budgetScore, h, h2]
  · have hlt : (b : ℚ) < (b : ℚ) * (6 / 5) := by
      have : (0 : ℚ) < b := by exact_mod_cast hb
      nlinarith
    have hnot : ¬ c.budget ≤ b := by
      intro hle
      have h1 : (c.budget : ℚ) ≤ (b : ℚ) := by exact_mod_cast hle
      rw [heq] at h1
      linarith
    simp [budgetScore, hnot, le_of_eq heq]

/-- A combination priced at 115% of a 100000 budget (spec §8, Scenario 3). -/
def exCombo115 : TravelCombination :=
  { id := 4, days := 3, start_location := "Kandy", budget := 115000,
    budget_category := "luxury", itinerary := [], estimated_cost := exCost,
    highlights := [], travel_styles := [] }

theorem C3_witness :
    budgetScore 100000 exCombo115 = 15 ∧ budgetScore 5 exComboZero = 30 :=
  ⟨(C3_budget_score 100000 exCombo115).2.1 (by norm_num [exCombo115])
      (by norm_num [exCombo115]),
    (C3_budget_score 5 exComboZero).1 (by norm_num [exComboZero])⟩

/-- Claim C4: for a non-empty user style set the style score is
`70 * |comboStyles ∩ userStyles| / |userStyles|`; for an empty user style set
it is `0` for every candidate (total, no error), and the surviving
candidates are then ranked by budget score alone. -/
theorem C4_style_score :
    (∀ (us : Finset String) (c : TravelCombination), us.Nonempty →
      styleScore us c =
        70 * ((comboStyles c ∩ us).card : ℚ) / (us.card : ℚ)) ∧
    (∀ c : TravelCombination, styleScore ∅ c = 0) ∧
    (∀ (db : List TravelCombination) (days : Int) (sl : String) (b : Int),
      List.Pairwise (fun x y : ℚ × ℚ × TravelCombination =>
          budgetScore b y.2.2 ≤ budgetScore b x.2.2)
        (sortedScored db [] days sl b)) := by
  refine ⟨fun us c hus => ?_, fun c => by simp [styleScore], fun db days sl b => ?_⟩
  · rw [styleScore, if_neg (Finset.nonempty_iff_ne_empty.mp hus)]
    ring
  · have hs : List.Pairwise rankRel (sortedScored db [] days sl b) :=
      List.sorted_insertionSort rankRel _
    refine hs.imp_of_mem ?_
    intro x y hx hy hr
    have hx' := mem_scoredList ((List.mem_insertionSort rankRel).mp hx)
    have hy' := mem_scoredList ((List.mem_insertionSort rankRel).mp hy)
    have hx1 : x.1 = 0 := by
      conv_lhs => rw [hx'.2]
      simp [styleScore]
    have hy1 : y.1 = 0 := by
      conv_lhs => rw [hy'.2]
      simp [styleScore]
    have hx2 : x.2.1 = budgetScore b x.2.2 := by
      conv_lhs => rw [hx'.2]
      simp [styleScore]
    have hy2 : y.2.1 = budgetScore b y.2.2 := by
      conv_lhs => rw [hy'.2]
      simp [styleScore]
    rcases hr with h | ⟨_, h⟩
    · rw [hx1, hy1] at h
      exact absurd h (lt_irrefl 0)
    · rw [hx2, hy2] at h
      exact h

theorem C4_witness :
    styleScore (["Adventure"] : List String).toFinset exCombo1 =
      70 * ((comboStyles exCombo1 ∩ (["Adventure"] : List String).toFinset).card : ℚ) /
        (((["Adventure"] : List String).toFinset : Finset String).card : ℚ) :=
  C4_style_score.1 (["Adventure"] : List String).toFinset exCombo1 (by simp)

/-- Claim C5: the sorted candidate list is ordered (pairwise, hence for
adjacent entries) lexicographically descending on `(styleScore, totalScore)`;
in particular a strictly higher style score always comes first, and the
returned list is the converted prefix of that sorted list. -/
theorem C5_sort_order (db : List TravelCombination) (styles : List String)
    (days : Int) (sl : String) (b lim : Int) :
    List.Pairwise rankRel (sortedScored db styles days sl b) ∧
    List.Pairwise (fun x y : ℚ × ℚ × TravelCombination => y.1 ≤ x.1)
      (sortedScored db styles days sl b) ∧
    get_recommendations db styles days sl b lim =
      (pyTake lim (sortedScored db styles days sl b)).map
        (fun x => convert_to_recommendation x.2.2 x.2.1) := by
  have hs : List.Pairwise rankRel (sortedScored db styles days sl b) :=
    List.sorted_insertionSort rankRel _
  refine ⟨hs, hs.imp ?_, rfl⟩
  intro x y hr
  rcases hr with h | ⟨h, _⟩
  · exact le_of_lt h
  · exact le_of_eq h.symm

/-- Claim C6: `totalScore = styleScore + budgetScore` with
`0 ≤ styleScore ≤ 70`, `0 ≤ budgetScore ≤ 30`, `0 ≤ totalScore ≤ 100`, and
each returned recommendation carries the total score rounded to 2 decimal
places. -/
theorem C6_score_bounds :
    (∀ (us : Finset String) (b : Int) (c : TravelCombination),
      0 ≤ styleScore us c ∧ styleScore us c ≤ 70 ∧
      0 ≤ budgetScore b c ∧ budgetScore b c ≤ 30 ∧
      0 ≤ styleScore us c + budgetScore b c ∧
      styleScore us c + budgetScore b c ≤ 100) ∧
    (∀ (db : List TravelCombination) (styles : List String) (days : Int)
      (sl : String) (b : Int) (x : ℚ × ℚ × TravelCombination),
      x ∈ scoredList db styles days sl b →
      x.2.1 = styleScore styles.toFinset x.2.2 + budgetScore b x.2.2) ∧
    (∀ (db : List TravelCombination) (styles : List String) (days : Int)
      (sl : String) (b lim : Int) (rec : TravelRecommendation),
      rec ∈ get_recommendations db styles days sl b lim →
      ∃ x ∈ scoredList db styles days sl b,
        rec = convert_to_recommendation x.2.2 x.2.1 ∧
        rec.score = pyRound2 x.2.1) := by
  refine ⟨fun us b c => ?_, fun db styles days sl b x hx => ?_,
    fun db styles days sl b lim rec hrec => ?_⟩
  · have hs0 : 0 ≤ styleScore us c := by
      unfold styleScore
      split
      · exact le_refl 0
      · positivity
    have hs70 : styleScore us c ≤ 70 := by
      unfold styleScore
      split
      · norm_num
      · rename_i hne
        have hcard : 0 < us.card :=
          Finset.card_pos.mpr (Finset.nonempty_iff_ne_empty.mpr hne)
        have hle : ((comboStyles c ∩ us).card : ℚ) ≤ (us.card : ℚ) := by
          exact_mod_cast Finset.card_le_card Finset.inter_subset_right
        have hdiv : ((comboStyles c ∩ us).card : ℚ) / (us.card : ℚ) ≤ 1 :=
          div_le_one_of_le₀ hle (by positivity)
        have h70 : (0 : ℚ) ≤ 70 := by norm_num
        calc ((comboStyles c ∩ us).card : ℚ) / (us.card : ℚ) * 70
            ≤ 1 * 70 := by exact mul_le_mul_of_nonneg_right hdiv h70
          _ = 70 := by norm_num
    have hb0 : 0 ≤ budgetScore b c := by
      unfold budgetScore
      split
      · norm_num
      · split <;> norm_num
    have hb30 : budgetScore b c ≤ 30 := by
      unfold budgetScore
      split
      · norm_num
      · split <;> norm_num
    exact ⟨hs0, hs70, hb0, hb30, by linarith, by linarith⟩
  · rcases mem_scoredList hx with ⟨-, hshape⟩
    conv_lhs => rw [hshape]
  · rcases mem_of_mem_get_recommendations hrec with ⟨x, hx, rfl⟩
    exact ⟨x, hx, rfl, rfl⟩

theorem C6_witness :
    ∃ x ∈ scoredList exDb ["Adventure", "Cultural"] 3 "Kandy" 100000,
      convert_to_recommendation exCombo2 85 =
        convert_to_recommendation x.2.2 x.2.1 ∧
      (convert_to_recommendation exCombo2 85).score = pyRound2 x.2.1 :=
  C6_score_bounds.2.2 exDb ["Adventure", "Cultural"] 3 "Kandy" 100000 10
    (convert_to_recommendation exCombo2 85) exDb_mem

end RouteMaster

namespace RouteMaster

/-- Claim C7: `get_combination_by_id` returns the distinct not-found value
exactly when no stored combination has the requested id; an existing
combination is returned unfiltered and unscored, with the zero placeholder
score. -/
theorem C7_get_combination_by_id (db : List TravelCombination) (i : Int) :
    (get_combination_by_id db i = none ↔ ∀ c ∈ db, c.id ≠ i) ∧
    (∀ c : TravelCombination, db.find? (fun c => c.id == i) = some c →
      get_combination_by_id db i = some (convert_to_recommendation c 0) ∧
      c.id = i ∧ (convert_to_recommendation c 0).score = 0) := by
  constructor
  · unfold get_combination_by_id
    rw [Option.map_eq_none', List.find?_eq_none]
    simp
  · intro c hc
    refine ⟨?_, ?_, ?_⟩
    · unfold get_combination_by_id
      rw [hc, Option.map_some']
    · simpa using List.find?_some hc
    · have hr : roundHalfEven (0 : ℚ) = 0 := by
        norm_num [roundHalfEven]
      simp [convert_to_recommendation, pyRound2, hr]

theorem C7_witness :
    get_combination_by_id exDb 2 = some (convert_to_recommendation exCombo2 0) ∧
    get_combination_by_id exDb 99 = none :=
  ⟨((C7_get_combination_by_id exDb 2).2 exCombo2 (by rfl)).1,
    (C7_get_combination_by_id exDb 99).1.mpr (by decide)⟩

/-- Claim C8: with a positive limit the returned list has length at most
`limit`, and it is exactly the converted first `limit` entries of the sorted
candidate list (excess candidates are dropped, no error). -/
theorem C8_truncation (db : List TravelCombination) (styles : List String)
    (days : Int) (sl : String) (b : Int) (lim : Int) (hlim : 0 < lim) :
    ((get_recommendations db styles days sl b lim).length : Int) ≤ lim ∧
    get_recommendations db styles days sl b lim =
      ((sortedScored db styles days sl b).take lim.toNat).map
        (fun x => convert_to_recommendation x.2.2 x.2.1) := by
  have hpy : pyTake lim (sortedScored db styles days sl b) =
      (sortedScored db styles days sl b).take lim.toNat := by
    unfold pyTake
    rw [if_pos (le_of_lt hlim)]
  constructor
  · unfold get_recommendations
    rw [hpy, List.length_map]
    have h1 : ((sortedScored db styles days sl b).take lim.toNat).length ≤
        lim.toNat := List.length_take_le _ _
    calc (((sortedScored db styles days sl b).take lim.toNat).length : Int)
        ≤ (lim.toNat : Int) := by exact_mod_cast h1
      _ = lim := Int.toNat_of_nonneg (le_of_lt hlim)
  · unfold get_recommendations
    rw [hpy]

theorem C8_witness :
    ((get_recommendations exDb ["Adventure", "Cultural"] 3 "Kandy" 100000
        1).length : Int) ≤ 1 ∧
    get_recommendations exDb ["Adventure", "Cultural"] 3 "Kandy" 100000 1 =
      ((sortedScored exDb ["Adventure", "Cultural"] 3 "Kandy" 100000).take
          (Int.toNat 1)).map
        (fun x => convert_to_recommendation x.2.2 x.2.1) :=
  C8_truncation exDb ["Adventure", "Cultural"] 3 "Kandy" 100000 1 (by norm_num)

/-- A location stored with a non-empty category, for the C9 counterexample. -/
def exLoc : Location :=
  { id := 1, string_id := "sigiriya", name := "Sigiriya",
    category := "cultural", district := "Matale", time_required := 4,
    entrance_fee := 30, description := "Rock fortress", coordinates := none }

/-- Claim C9, counterexample: the empty string is a non-null category
argument, yet the Python truthiness guard `if category:` skips the filter, so
`get_all_locations` returns every location instead of exactly the locations
whose stored category equals `normalizeCategory "" = ""` (of which there are
none in the store `[exLoc]`). -/
theorem C9_counterexample :
    get_all_locations [exLoc] (some "") = [convert_to_location_info exLoc] ∧
    ([exLoc].filter fun l => l.category == normalizeCategory "").map
        convert_to_location_info = [] :=
  ⟨rfl, rfl⟩

/-- Claim C9 (amended): for a non-null, non-empty ASCII category argument —
the only arguments on which the character-wise `normalizeCategory` coincides
with Python's `str.lower()`-based normalization — `get_all_locations` returns
exactly the locations whose stored category equals the normalized argument
(case-folded, `/` and `-` replaced with `_`); with no category argument it
returns all locations (with the empty string it also returns all locations,
by Python truthiness). The two sample inputs normalize to
`"nature_wildlife"`. -/
theorem C9_get_all_locations :
    (∀ (dbLocations : List Location) (cat : String), asciiOnly cat = true →
      ¬ cat = "" →
      get_all_locations dbLocations (some cat) =
        (dbLocations.filter fun l => l.category == normalizeCategory cat).map
          convert_to_location_info) ∧
    (∀ dbLocations : List Location,
      get_all_locations dbLocations none =
        dbLocations.map convert_to_location_info) ∧
    normalizeCategory "Nature/Wildlife" = "nature_wildlife" ∧
    normalizeCategory "nature-wildlife" = "nature_wildlife" := by
  refine ⟨fun dbLocations cat _ hcat => ?_, fun dbLocations => rfl, by decide,
    by decide⟩
  have hdef : get_all_locations dbLocations (some cat) =
      (if cat = "" then dbLocations
       else dbLocations.filter fun l => l.category == normalizeCategory cat).map
        convert_to_location_info := rfl
  rw [hdef, if_neg hcat]

theorem C9_witness :
    get_all_locations [exLoc] (some "Cultural") =
      ([exLoc].filter fun l => l.category == normalizeCategory "Cultural").map
        convert_to_location_info :=
  C9_get_all_locations.1 [exLoc] "Cultural" (by decide) (by decide)

end RouteMaster

namespace RouteMaster

/-- Modelled from the claim: the candidate tuples carrying
`(style_score, budget_score, combo)` instead of
`(style_score, total_score, combo)`. -/
def scoredListB (dbCombos : List TravelCombination) (travel_styles : List String)
    (days : Int) (start_location : String) (budget : Int) :
    List (ℚ × ℚ × TravelCombination) :=
  (hardFiltered dbCombos travel_styles days start_location).map fun c =>
    (styleScore travel_styles.toFinset c, budgetScore budget c, c)

/-- Modelled from the claim: the same pipeline sorted descending on the pair
`(styleScore, budgetScore)`, with the total score reconstituted as the sum of
the two terms on conversion. -/
def get_recommendationsB (dbCombos : List TravelCombination)
    (travel_styles : List String) (days : Int) (start_location : String)
    (budget : Int) (limit : Int := 10) : List TravelRecommendation :=
  (pyTake limit (List.insertionSort rankRel
      (scoredListB dbCombos travel_styles days start_location budget))).map
    fun x => convert_to_recommendation x.2.2 (x.1 + x.2.1)

/-- Replace the second component of a candidate tuple by its difference with
the first: this carries `(s, s + b, c)` to `(s, b, c)`. -/
def subKey (x : ℚ × ℚ × TravelCombination) : ℚ × ℚ × TravelCombination :=
  (x.1, x.2.1 - x.1, x.2.2)

theorem rankRel_subKey (x y : ℚ × ℚ × TravelCombination) :
    rankRel (subKey x) (subKey y) ↔ rankRel x y := by
  unfold rankRel subKey
  dsimp only
  constructor
  · rintro (h | ⟨h1, h2⟩)
    · exact Or.inl h
    · exact Or.inr ⟨h1, by linarith⟩
  · rintro (h | ⟨h1, h2⟩)
    · exact Or.inl h
    · exact Or.inr ⟨h1, by linarith⟩

theorem orderedInsert_subKey (a : ℚ × ℚ × TravelCombination) :
    ∀ l : List (ℚ × ℚ × TravelCombination),
      (l.map subKey).orderedInsert rankRel (subKey a) =
        (l.orderedInsert rankRel a).map subKey
  | [] => rfl
  | b :: l => by
    by_cases h : rankRel a b
    · rw [List.map_cons, List.orderedInsert, List.orderedInsert,
        if_pos ((rankRel_subKey a b).mpr h), if_pos h, List.map_cons,
        List.map_cons]
    · rw [List.map_cons, List.orderedInsert, List.orderedInsert,
        if_neg (fun hc => h ((rankRel_subKey a b).mp hc)), if_neg h,
        List.map_cons, orderedInsert_subKey a l]

theorem insertionSort_subKey :
    ∀ l : List (ℚ × ℚ × TravelCombination),
      (l.map subKey).insertionSort rankRel =
        (l.insertionSort rankRel).map subKey
  | [] => rfl
  | a :: l => by
    rw [List.map_cons, List.insertionSort, List.insertionSort,
      insertionSort_subKey l, orderedInsert_subKey]

theorem scoredListB_eq (db : List TravelCombination) (styles : List String)
    (days : Int) (sl : String) (b : Int) :
    scoredListB db styles days sl b = (scoredList db styles days sl b).map subKey := by
  unfold scoredListB scoredList
  rw [List.map_map]
  refine List.map_congr_left fun c _ => ?_
  simp [subKey]

theorem pyTake_map {α β : Type} (f : α → β) (lim : Int) (l : List α) :
    pyTake lim (l.map f) = (pyTake lim l).map f := by
  unfold pyTake
  rw [List.length_map]
  split <;> rw [List.map_take]

/-- Claim C10: sorting the surviving candidates descending on
`(styleScore, totalScore)` and descending on `(styleScore, budgetScore)`
produce the same returned list, because `totalScore = styleScore +
budgetScore` makes the tie-breakers agree whenever the primary keys are
equal. -/
theorem C10_sort_keys_interchangeable (db : List TravelCombination)
    (styles : List String) (days : Int) (sl : String) (b lim : Int) :
    get_recommendations db styles days sl b lim =
      get_recommendationsB db styles days sl b lim := by
  unfold get_recommendations get_recommendationsB sortedScored
  rw [scoredListB_eq, insertionSort_subKey, pyTake_map, List.map_map]
  refine List.map_congr_left fun x _ => ?_
  simp [subKey, Function.comp]

end RouteMaster
